import Mathlib

/-!
# Verification of the tiered dynamic-execution engine

Shallow embedding of `src/app/analyzers/dynamic_analyzer.py` (class
`DynamicAnalyzer`).  Python dicts are modelled as association lists of
string keys and JSON-like values; the external effects (the Docker
daemon, the child process, the `json` library) are modelled as explicit
outcome parameters, so that every control-flow path of the Python code
appears as a case of a total Lean function.
-/

namespace CodeGuard

/-- JSON-like values as produced and consumed by the analyzer's dicts
(Python `bool`, `str`, `None`, and nested dicts). -/
inductive JVal where
  | bool (b : Bool)
  | str (s : String)
  | num (n : Int)
  | none
  | obj (fields : List (String × JVal))
deriving Inhabited

/-- A Python dict with string keys, in insertion order. -/
abbrev Dict := List (String × JVal)

/-- `d.get(k)` without a default: the first binding of `k`, if any. -/
def lookupKey (d : Dict) (k : String) : Option JVal :=
  match d.find? (fun p => p.1 == k) with
  | some p => some p.2
  | Option.none => Option.none

/-- Python `d.get(k, dflt)`. -/
def getD (d : Dict) (k : String) (dflt : JVal) : JVal :=
  match lookupKey d k with
  | some v => v
  | Option.none => dflt

/-- `d[k] = v` for a key already present in `d` (all assignments in the
classifier overwrite keys of the freshly built dict). -/
def setKey (d : Dict) (k : String) (v : JVal) : Dict :=
  d.map (fun p => if p.1 == k then (k, v) else p)

/-- Python truthiness of the modelled values, as used by
`if not result.get("success")`. -/
def JVal.truthy : JVal → Bool
  | .bool b => b
  | .str s => !s.isEmpty
  | .num n => !(n == 0)
  | .none => false
  | .obj l => !l.isEmpty

/-- `error_type == "Name"`: Python `==` between a possibly-`None` value
and a string literal. -/
def jeqStr (v : JVal) (s : String) : Bool :=
  match v with
  | .str t => t == s
  | _ => false

/-! ## Result Classifier (`_classify_runtime_errors`, lines 260-309) -/

/-- `DynamicAnalyzer._classify_runtime_errors`, translated clause by
clause from the source. -/
def _classify_runtime_errors (result : Dict) : Dict :=
  let classification : Dict :=
    [("execution_success", getD result "success" (.bool false)),
     ("wrong_attribute", .obj [("found", .bool false)]),
     ("wrong_input_type", .obj [("found", .bool false)]),
     ("name_error", .obj [("found", .bool false)]),
     ("missing_corner_case", .obj [("found", .bool false)]),
     ("other_error", .obj [("found", .bool false)])]
  if !(getD result "success" JVal.none).truthy then
    let error_type := getD result "error_type" JVal.none
    let error_msg := getD result "error" (.str "")
    let tb := getD result "traceback" (.str "")
    if jeqStr error_type "ZeroDivisionError" then
      setKey classification "missing_corner_case" (.obj
        [("found", .bool true),
         ("error", error_msg),
         ("description", .str "ZeroDivisionError at runtime — division by zero not guarded"),
         ("traceback", tb)])
    else if jeqStr error_type "AttributeError" then
      setKey classification "wrong_attribute" (.obj
        [("found", .bool true), ("error", error_msg), ("traceback", tb)])
    else if jeqStr error_type "TypeError" then
      setKey classification "wrong_input_type" (.obj
        [("found", .bool true), ("error", error_msg), ("traceback", tb)])
    else if jeqStr error_type "NameError" then
      setKey classification "name_error" (.obj
        [("found", .bool true), ("error", error_msg), ("traceback", tb)])
    else
      setKey classification "other_error" (.obj
        [("found", .bool true), ("error_type", error_type),
         ("error", error_msg), ("traceback", tb)])
  else
    classification

/-! ## Safety Pre-Filter (`_is_safe_for_subprocess`, lines 73-80)

The Python code runs `re.search(rf'\bimport\s+IMP\b|\bfrom\s+IMP\b', code)`
for each entry of `_DANGEROUS_IMPORTS`.  The regex is modelled directly:
`\w` (and hence `\b`) is modelled over ASCII word characters and `\s`
over ASCII whitespace, which agrees with Python on the module names of
the deny-list and on ASCII source text. -/

def isWordChar (c : Char) : Bool :=
  (c ≥ 'a' && c ≤ 'z') || (c ≥ 'A' && c ≤ 'Z') || (c ≥ '0' && c ≤ '9') || c == '_'

def isPySpace (c : Char) : Bool :=
  c == ' ' || c == '\t' || c == '\n' || c == '\x0d' ||
  c == '\x0b' || c == '\x0c'

/-- Match a literal word as a prefix, returning the rest. -/
def matchLit : List Char → List Char → Option (List Char)
  | [], cs => some cs
  | _ :: _, [] => Option.none
  | l :: ls, c :: cs => if c == l then matchLit ls cs else Option.none

/-- Match `\bKEYWORD\s+IMP\b` at the current position, assuming the
position is already known to sit at a word boundary. -/
def matchKwImpAt (kw imp : List Char) (cs : List Char) : Bool :=
  match matchLit kw cs with
  | Option.none => false
  | some rest =>
    match rest with
    | [] => false
    | c :: rest2 =>
      if isPySpace c then
        match matchLit imp (rest2.dropWhile isPySpace) with
        | Option.none => false
        | some rest3 =>
          match rest3 with
          | [] => true
          | c2 :: _ => !isWordChar c2
      else false

/-- Scan every position of the text; the Boolean argument records
whether the current position is a `\b` boundary for a word start
(beginning of text, or previous character not a word character). -/
def searchKwImp (kw imp : List Char) : Bool → List Char → Bool
  | _, [] => false
  | bnd, c :: cs =>
    (bnd && matchKwImpAt kw imp (c :: cs)) || searchKwImp kw imp (!isWordChar c) cs

/-- `re.search(rf'\bimport\s+IMP\b|\bfrom\s+IMP\b', code)` as a Boolean. -/
def reSearchDangerous (imp : String) (code : String) : Bool :=
  searchKwImp "import".toList imp.toList true code.toList ||
  searchKwImp "from".toList imp.toList true code.toList

/-- The module-level `_DANGEROUS_IMPORTS` set (lines 14-17). -/
def _DANGEROUS_IMPORTS : List String :=
  ["os", "subprocess", "shutil", "socket", "ctypes", "multiprocessing",
   "threading", "signal", "pty", "tty", "termios", "resource"]

/-- `DynamicAnalyzer._is_safe_for_subprocess`: refuse execution when any
deny-list pattern matches (the Python loop returns `False` on the first
match, `True` when none matches; iteration order over the set does not
affect the result). -/
def _is_safe_for_subprocess (code : String) : Bool :=
  !(_DANGEROUS_IMPORTS.any (fun imp => reSearchDangerous imp code))

/-! ## Backend models

External behavior is represented by outcome values: what the Docker
daemon, the child process and the `json` parser did on this request.
`json.loads` is the external `json` library; it is passed in as a
function returning the parsed value, or `none` on a parse failure. -/

/-- External `json.loads`: a parse yields an arbitrary top-level JSON
value — not necessarily an object (captured output such as "5" parses
to a number) — or fails.  JSON numbers are modelled as integers; the
analyzer never inspects a parsed non-object beyond the `.get` call
that raises on it, so the numeric representation is immaterial. -/
abbrev JsonLoads := String → Option JVal

/-- The distinguished launch failures of `client.containers.run` that
`_execute_in_sandbox` catches (lines 231-253). -/
inductive DockerRunError where
  | containerError (msg : String)
  | imageNotFound
  | otherError (msg : String)

/-- One container-backend run, seen from `_execute_in_sandbox`:
either the wrapper materialization raises before the guarded `try`
(lines 164-169, e.g. a tempfile failure — the only exception that can
escape the method), or the guarded body runs and ends in one of its
handled cases. -/
inductive SandboxOutcome where
  | prepRaises
  | runRaises (e : DockerRunError)
  | waitFails
  | completed (output : String)

/-- `DynamicAnalyzer._execute_in_sandbox` (lines 162-258): `.error ()`
models an exception escaping to the caller, `.ok v` a returned value —
a synthesized raw dict for the handled failures, or whatever
`json.loads` produced on completion (possibly a non-object).
`waitFails` is any exception from `container.wait`/`container.logs`
inside the inner `try` (lines 202-216), which the code reports as a
timeout. -/
def _execute_in_sandbox (jsonLoads : JsonLoads) : SandboxOutcome → Except Unit JVal
  | .prepRaises => .error ()
  | .runRaises (.containerError msg) =>
    .ok (.obj [("success", .bool false), ("error", .str msg),
         ("error_type", .str "ContainerError")])
  | .runRaises .imageNotFound =>
    .ok (.obj [("success", .bool false),
         ("error", .str "Docker image 'python:3.10-slim' not found. Please run: docker pull python:3.10-slim"),
         ("error_type", .str "ImageNotFound")])
  | .runRaises (.otherError msg) =>
    .ok (.obj [("success", .bool false), ("error", .str msg),
         ("error_type", .str "ExecutionError")])
  | .waitFails =>
    .ok (.obj [("success", .bool false), ("error", .str "Execution timed out"),
         ("error_type", .str "TimeoutError")])
  | .completed output =>
    .ok (match jsonLoads output with
      | some v => v
      | Option.none =>
        .obj [("success", .bool false), ("output", .str output),
         ("error", .str "Failed to parse execution result"),
         ("error_type", .str "ParseError")])

/-- Python `str.strip()` over the modelled whitespace characters. -/
def pyStrip (s : String) : String :=
  String.mk (((s.toList.dropWhile isPySpace).reverse.dropWhile isPySpace).reverse)

/-- One subprocess-backend run, seen from `_execute_in_subprocess`:
`raises` is any exception that escapes the method (tempfile failure
before the `try`, or `subprocess.run` raising something other than
`TimeoutExpired`); otherwise the child either times out or completes
with captured streams. -/
inductive SubprocOutcome where
  | raises
  | timeoutExpired
  | completed (stdout stderr : String)

/-- The raw result synthesized on `subprocess.TimeoutExpired`
(lines 111-116). -/
def subprocTimeoutRaw : Dict :=
  [("success", .bool false), ("error", .str "Execution timed out"),
   ("error_type", .str "TimeoutError")]

/-- The raw result of a subprocess output that `json.loads` rejects
(lines 105-110). -/
def subprocParseFailure (output : String) : Dict :=
  [("success", .bool false), ("output", .str output),
   ("error", .str "Failed to parse subprocess output"),
   ("error_type", .str "ParseError")]

/-- `DynamicAnalyzer._execute_in_subprocess` (lines 82-121): `.ok` is
the synthesized timeout dict, the parsed value of the captured output
(possibly a non-object), or the synthesized parse-failure dict. -/
def _execute_in_subprocess (jsonLoads : JsonLoads) : SubprocOutcome → Except Unit JVal
  | .raises => .error ()
  | .timeoutExpired => .ok (.obj subprocTimeoutRaw)
  | .completed stdout stderr =>
    let output := pyStrip stdout
    let output := if output.isEmpty then pyStrip stderr else output
    .ok (match jsonLoads output with
      | some v => v
      | Option.none => .obj (subprocParseFailure output))

/-! ## Tiered executor (`analyze`, lines 35-67) -/

/-- The literal dict returned at lines 60-67 when both backends are
exhausted ("Dynamic analysis skipped"). -/
def skippedResult : Dict :=
  [("execution_error", .bool false),
   ("error_message", .str "Dynamic analysis skipped (Docker unavailable and code contains system imports)"),
   ("wrong_attribute", .obj [("found", .bool false)]),
   ("wrong_input_type", .obj [("found", .bool false)]),
   ("name_error", .obj [("found", .bool false)]),
   ("other_error", .obj [("found", .bool false)])]

/-- The call `self._classify_runtime_errors(result)` on an arbitrary
Python value: `result.get` raises `AttributeError` unless `result` is
a dict, so a parsed non-object makes the call raise inside the caller's
`try`. -/
def classifyValue : JVal → Except Unit Dict
  | .obj d => .ok (_classify_runtime_errors d)
  | _ => .error ()

/-- Lines 51-67 of `analyze`: the subprocess fallback and the skip
return.  An exception from `_execute_in_subprocess` — or from the
classifier call on a parsed non-object (line 56 sits inside the
`try`) — is logged and falls through to the skip dict. -/
def subprocessPhase (jsonLoads : JsonLoads) (code : String)
    (sp : SubprocOutcome) : Dict :=
  if _is_safe_for_subprocess code then
    match _execute_in_subprocess jsonLoads sp with
    | .ok result =>
      (match classifyValue result with
       | .ok c => c
       | .error _ => skippedResult)
    | .error _ => skippedResult
  else
    skippedResult

/-- `DynamicAnalyzer.analyze` (lines 35-67).  `clientAvailable` is
`self.client is not None` (the process-wide Docker handle); `sb` and
`sp` are the outcomes of the container and subprocess runs on this
request.  An exception from `_execute_in_sandbox` — or from the
classifier call on a parsed non-object (line 46 sits inside the
`try`) — is logged and falls through to the subprocess phase. -/
def analyze (jsonLoads : JsonLoads) (clientAvailable : Bool) (code : String)
    (sb : SandboxOutcome) (sp : SubprocOutcome) : Dict :=
  if clientAvailable then
    match _execute_in_sandbox jsonLoads sb with
    | .ok result =>
      (match classifyValue result with
       | .ok c => c
       | .error _ => subprocessPhase jsonLoads code sp)
    | .error _ => subprocessPhase jsonLoads code sp
  else
    subprocessPhase jsonLoads code sp

/-! ## Derived observations used by the theorems -/

/-- Whether the category object stored at key `k` is marked found. -/
def isFound (d : Dict) (k : String) : Bool :=
  match getD d k JVal.none with
  | .obj fields => (getD fields "found" JVal.none).truthy
  | _ => false

/-- The five fixed category keys of the taxonomy. -/
def categoryKeys : List String :=
  ["wrong_attribute", "wrong_input_type", "name_error",
   "missing_corner_case", "other_error"]

/-- How many of the five categories a classification marks found. -/
def foundCount (d : Dict) : Nat :=
  (categoryKeys.filter (fun k => isFound d k)).length

/-- A generic raw execution result with the five record fields of the
data model (`success`, `output`, `error`, `error_type`, `traceback`). -/
def mkRaw (success : Bool) (output et msg tb : JVal) : Dict :=
  [("success", .bool success), ("output", output), ("error_type", et),
   ("error", msg), ("traceback", tb)]

/-- A category object in its default not-found state. -/
def notFound : JVal := .obj [("found", .bool false)]

/-- The classifier table of the specification (§4.6), written as an
independent function of the raw failure kind: success means every
category stays not-found; each recognized kind marks exactly its own
category; everything else goes to `other_error` carrying the original
kind label, message and trace. -/
def classifierTable (success : Bool) (et msg tb : JVal) : Dict :=
  if success then
    [("execution_success", .bool true),
     ("wrong_attribute", notFound),
     ("wrong_input_type", notFound),
     ("name_error", notFound),
     ("missing_corner_case", notFound),
     ("other_error", notFound)]
  else if jeqStr et "ZeroDivisionError" then
    [("execution_success", .bool false),
     ("wrong_attribute", notFound),
     ("wrong_input_type", notFound),
     ("name_error", notFound),
     ("missing_corner_case", .obj
        [("found", .bool true), ("error", msg),
         ("description", .str "ZeroDivisionError at runtime — division by zero not guarded"),
         ("traceback", tb)]),
     ("other_error", notFound)]
  else if jeqStr et "AttributeError" then
    [("execution_success", .bool false),
     ("wrong_attribute", .obj
        [("found", .bool true), ("error", msg), ("traceback", tb)]),
     ("wrong_input_type", notFound),
     ("name_error", notFound),
     ("missing_corner_case", notFound),
     ("other_error", notFound)]
  else if jeqStr et "TypeError" then
    [("execution_success", .bool false),
     ("wrong_attribute", notFound),
     ("wrong_input_type", .obj
        [("found", .bool true), ("error", msg), ("traceback", tb)]),
     ("name_error", notFound),
     ("missing_corner_case", notFound),
     ("other_error", notFound)]
  else if jeqStr et "NameError" then
    [("execution_success", .bool false),
     ("wrong_attribute", notFound),
     ("wrong_input_type", notFound),
     ("name_error", .obj
        [("found", .bool true), ("error", msg), ("traceback", tb)]),
     ("missing_corner_case", notFound),
     ("other_error", notFound)]
  else
    [("execution_success", .bool false),
     ("wrong_attribute", notFound),
     ("wrong_input_type", notFound),
     ("name_error", notFound),
     ("missing_corner_case", notFound),
     ("other_error", .obj
        [("found", .bool true), ("error_type", et), ("error", msg),
         ("traceback", tb)])]

/-! ## Small laws of the dict operations -/

@[simp] theorem lookupKey_nil (k : String) :
    lookupKey [] k = Option.none := rfl

@[simp] theorem lookupKey_cons (k k' : String) (v : JVal) (d : Dict) :
    lookupKey ((k, v) :: d) k' = if k == k' then some v else lookupKey d k' := by
  by_cases h : k == k' <;> simp [lookupKey, List.find?, h]

@[simp] theorem getD_nil (k : String) (dflt : JVal) :
    getD [] k dflt = dflt := rfl

@[simp] theorem getD_cons (k k' : String) (v : JVal) (d : Dict) (dflt : JVal) :
    getD ((k, v) :: d) k' dflt = if k == k' then v else getD d k' dflt := by
  by_cases h : k == k' <;> simp [getD, h]

@[simp] theorem setKey_nil (k : String) (v : JVal) :
    setKey [] k v = [] := rfl

@[simp] theorem setKey_cons (k' k : String) (v' v : JVal) (d : Dict) :
    setKey ((k', v') :: d) k v =
      (if k' == k then (k, v) else (k', v')) :: setKey d k v := by
  by_cases h : k' == k
  · have hk : k' = k := by simpa using h
    subst hk
    simp [setKey]
  · simp [setKey, h]
    intro hk
    exact absurd (by simp [hk]) h

/-! ## Wrapper Builder (`_build_wrapper`, lines 127-160)

`repr(self.code)` is modelled by `pyRepr`: Python 3's `repr` of a `str`
picks a single quote unless the text contains one and no double quote,
escapes the backslash, the chosen quote, newline, carriage return and
tab, writes other control characters (below `0x20`, and `0x7f`) as
`\xHH` hex escapes, and keeps every other character as itself. -/

/-- Quote character chosen by `repr`. -/
def pyReprQuote (s : String) : Char :=
  if s.toList.contains '\'' && !(s.toList.contains '"') then '"' else '\''

/-- Lower-case hex digit of `n < 16`. -/
def hexDigitChar (n : Nat) : Char :=
  if n < 10 then Char.ofNat (48 + n) else Char.ofNat (97 + (n - 10))

/-- `repr`'s encoding of one character under quote `q`. -/
def pyReprChar (q c : Char) : List Char :=
  if c == '\\' then ['\\', '\\']
  else if c == q then ['\\', q]
  else if c == '\n' then ['\\', 'n']
  else if c == '\x0d' then ['\\', 'r']
  else if c == '\t' then ['\\', 't']
  else if c.toNat < 32 || c.toNat == 127 then
    ['\\', 'x', hexDigitChar (c.toNat / 16), hexDigitChar (c.toNat % 16)]
  else [c]

/-- `repr`'s encoding of the whole text, without the enclosing quotes. -/
def pyReprBody (q : Char) : List Char → List Char
  | [] => []
  | c :: cs => pyReprChar q c ++ pyReprBody q cs

/-- Python `repr` on strings: quote, escaped body, quote. -/
def pyRepr (s : String) : String :=
  let q := pyReprQuote s
  String.mk (q :: pyReprBody q s.toList ++ [q])

/-- The literal text of the wrapper template before `repr(self.code)`. -/
def wrapperHeader : String := "import sys, json, traceback\ncode_to_run = "

/-- The literal text of the wrapper template after `repr(self.code)`
(the f-string's doubled braces appear as single braces here, exactly as
in the generated script). -/
def wrapperTail : String :=
  "\nresult = \x7b\"success\": False, \"output\": \"\", \"error\": None, \"error_type\": None, \"traceback\": None\x7d\ntry:\n    exec(compile(code_to_run, \"<codeguard>\", \"exec\"))\n    result[\"success\"] = True\n    result[\"output\"] = \"Code executed successfully\"\nexcept ZeroDivisionError as e:\n    result[\"error_type\"] = \"ZeroDivisionError\"\n    result[\"error\"] = str(e)\n    result[\"traceback\"] = traceback.format_exc()\nexcept AttributeError as e:\n    result[\"error_type\"] = \"AttributeError\"\n    result[\"error\"] = str(e)\n    result[\"traceback\"] = traceback.format_exc()\nexcept TypeError as e:\n    result[\"error_type\"] = \"TypeError\"\n    result[\"error\"] = str(e)\n    result[\"traceback\"] = traceback.format_exc()\nexcept NameError as e:\n    result[\"error_type\"] = \"NameError\"\n    result[\"error\"] = str(e)\n    result[\"traceback\"] = traceback.format_exc()\nexcept Exception as e:\n    result[\"error_type\"] = type(e).__name__\n    result[\"error\"] = str(e)\n    result[\"traceback\"] = traceback.format_exc()\nprint(json.dumps(result))\n"

/-- `DynamicAnalyzer._build_wrapper` (lines 127-160): the generated
script text, a pure function of the target code. -/
def _build_wrapper (code : String) : String :=
  wrapperHeader ++ pyRepr code ++ wrapperTail

/-! ### Execution model of the generated wrapper script

The script runs `exec(...)` inside `try`, funnels each `except` clause
into the shared `result` dict, and ends with `print(json.dumps(result))`
outside the `try`.  The embedded code's behavior is an outcome value:

* `ok` — the `exec` completes;
* `raises label msg tb` — it raises an exception derived from
  `Exception`, caught by one of the `except` clauses; `label` is the
  kind label that clause records (the literal class name in the four
  specific clauses, `type(e).__name__` in the broadest one);
* `baseEscape` — it raises a `BaseException` outside `Exception`
  (`SystemExit` from `exit()`, `KeyboardInterrupt`), which no clause of
  the `except Exception`-bounded chain catches: the script terminates
  before the final print and emits no result line;
* `breaksEmission` — it completes but has rebound names the final line
  needs (`print`, `json`, `traceback`) in the module namespace that the
  one-argument `exec` at wrapper line 5 shares with it, so the final
  print raises after the `try` and no result line is emitted.

Whatever the embedded code itself prints arrives on standard output
ahead of the wrapper's own final line. -/

inductive CodeOutcome where
  | ok
  | raises (label msg tb : String)
  | baseEscape
  | breaksEmission

/-- One line of the script's standard output: diagnostic text printed
by the embedded code, or the `json.dumps`-serialized result record. -/
inductive OutLine where
  | text (s : String)
  | record (d : Dict)

def isRecordLine : OutLine → Bool
  | .record _ => true
  | .text _ => false

/-- The wrapper's `result` dict as initialised on its second line. -/
def wrapperInitResult : Dict :=
  [("success", .bool false), ("output", .str ""), ("error", JVal.none),
   ("error_type", JVal.none), ("traceback", JVal.none)]

/-- The in-memory `result` dict when control leaves the `try`/`except`
chain (on `baseEscape` the updates never ran; on `breaksEmission` the
success updates ran but the dict is never printed). -/
def wrapperResult : CodeOutcome → Dict
  | .ok => setKey (setKey wrapperInitResult "success" (.bool true)) "output"
      (.str "Code executed successfully")
  | .raises label msg tb =>
      setKey (setKey (setKey wrapperInitResult "error_type" (.str label))
        "error" (.str msg)) "traceback" (.str tb)
  | .baseEscape => wrapperInitResult
  | .breaksEmission => setKey (setKey wrapperInitResult "success" (.bool true)) "output"
      (.str "Code executed successfully")

/-- Standard output of one wrapper run: the embedded code's own prints,
then the result line — which the script reaches only when the embedded
code completed or raised a caught exception. -/
def wrapperRun (printed : List String) : CodeOutcome → List OutLine
  | .ok =>
    (printed.map OutLine.text) ++ [OutLine.record (wrapperResult CodeOutcome.ok)]
  | .raises label msg tb =>
    (printed.map OutLine.text) ++
      [OutLine.record (wrapperResult (CodeOutcome.raises label msg tb))]
  | .baseEscape => printed.map OutLine.text
  | .breaksEmission => printed.map OutLine.text

/-! ## Python string-literal evaluation

`pyEvalStrLit` models how Python evaluates the string literal that
`_build_wrapper` embeds: an opening quote, a body in which the quote
character terminates the literal unless escaped, and the escape forms
that `repr` emits (`\\`, `\'`, `\"`, `\n`, `\r`, `\t`, `\xHH`); any
text after the closing quote, or an unterminated literal, is rejected. -/

/-- Value of one hex digit character. -/
def hexVal (c : Char) : Option Nat :=
  if 48 ≤ c.toNat && c.toNat ≤ 57 then some (c.toNat - 48)
  else if 97 ≤ c.toNat && c.toNat ≤ 102 then some (c.toNat - 87)
  else if 65 ≤ c.toNat && c.toNat ≤ 70 then some (c.toNat - 55)
  else Option.none

/-- The single-character escapes emitted by `repr`. -/
def decodeSimpleEscape (e : Char) : Option Char :=
  if e == '\\' then some '\\'
  else if e == '\'' then some '\''
  else if e == '"' then some '"'
  else if e == 'n' then some '\n'
  else if e == 'r' then some '\x0d'
  else if e == 't' then some '\t'
  else Option.none

/-- Decode the two hex digits of a `\xHH` escape. -/
def pyEvalHexPair : List Char → Option Char
  | h1 :: h2 :: _ =>
    (match hexVal h1, hexVal h2 with
     | some a, some b => some (Char.ofNat (16 * a + b))
     | _, _ => Option.none)
  | _ => Option.none

/-- Evaluate the body of a string literal with quote `q`: stop at an
unescaped quote (which must end the input), decode the escape forms,
fail on anything malformed. -/
def pyEvalBody (q : Char) : List Char → Option (List Char)
  | [] => Option.none
  | c :: cs =>
    if c == q then (if cs.isEmpty then some [] else Option.none)
    else if c == '\\' then
      (match cs with
       | [] => Option.none
       | e :: cs2 =>
         if e == 'x' then
           (match pyEvalHexPair cs2 with
            | some d => (pyEvalBody q (cs2.drop 2)).map (fun l => d :: l)
            | Option.none => Option.none)
         else
           (match decodeSimpleEscape e with
            | some d => (pyEvalBody q cs2).map (fun l => d :: l)
            | Option.none => Option.none))
    else (pyEvalBody q cs).map (fun l => c :: l)
termination_by l => l.length
decreasing_by
  all_goals simp [List.length_drop]
  all_goals omega

/-- Evaluate a full Python string literal. -/
def pyEvalStrLit (s : String) : Option String :=
  match s.toList with
  | [] => Option.none
  | q :: rest =>
    if q == '\'' || q == '"' then (pyEvalBody q rest).map String.mk
    else Option.none

/-! ### Round-trip of the literal encoding -/

theorem hexVal_hexDigitChar : ∀ n : Nat, n < 16 → hexVal (hexDigitChar n) = some n := by
  decide

theorem pyEvalHexPair_encode (n : Nat) (h : n < 256) (X : List Char) :
    pyEvalHexPair (hexDigitChar (n / 16) :: hexDigitChar (n % 16) :: X) =
      some (Char.ofNat n) := by
  have h1 : n / 16 < 16 := by omega
  have h2 : n % 16 < 16 := by omega
  simp [pyEvalHexPair, hexVal_hexDigitChar _ h1, hexVal_hexDigitChar _ h2,
    Nat.div_add_mod]

theorem pyEvalBody_plain (q c : Char) (h1 : ¬c = q) (h2 : ¬c = '\\') (X : List Char) :
    pyEvalBody q (c :: X) = (pyEvalBody q X).map (fun l => c :: l) := by
  rcases X with _ | ⟨e, cs2⟩ <;> simp [pyEvalBody, h1, h2]

/-- Decoding inverts encoding, character by character, for either legitimate
quote character. -/
theorem pyEvalBody_pyReprBody (q : Char) (hq : q = '\'' ∨ q = '"') (l : List Char) :
    pyEvalBody q (pyReprBody q l ++ [q]) = some l := by
  induction l with
  | nil =>
    rcases hq with rfl | rfl <;> simp [pyReprBody, pyEvalBody]
  | cons c cs ih =>
    simp only [pyReprBody, List.append_assoc]
    unfold pyReprChar
    split_ifs with h1 h2 h3 h4 h5 h6
    · have hc : c = '\\' := by simpa using h1
      subst hc
      rcases hq with rfl | rfl <;>
        simp [pyEvalBody, decodeSimpleEscape, ih]
    · have hc : c = q := by simpa using h2
      subst hc
      rcases hq with rfl | rfl <;>
        simp [pyEvalBody, decodeSimpleEscape, ih]
    · have hc : c = '\n' := by simpa using h3
      subst hc
      rcases hq with rfl | rfl <;>
        simp [pyEvalBody, decodeSimpleEscape, ih]
    · have hc : c = '\x0d' := by simpa using h4
      subst hc
      rcases hq with rfl | rfl <;>
        simp [pyEvalBody, decodeSimpleEscape, ih]
    · have hc : c = '\t' := by simpa using h5
      subst hc
      rcases hq with rfl | rfl <;>
        simp [pyEvalBody, decodeSimpleEscape, ih]
    · have hrange : c.toNat < 32 ∨ c.toNat = 127 := by simpa using h6
      have hb : c.toNat < 256 := by omega
      rcases hq with rfl | rfl <;>
        simp [pyEvalBody, pyEvalHexPair_encode c.toNat hb, ih]
    · have hb1 : ¬c = q := by simpa using h2
      have hb2 : ¬c = '\\' := by simpa using h1
      simp [pyEvalBody_plain q c hb1 hb2, ih]

/-- `eval(repr(s)) = s`: the literal embedded by the wrapper builder
evaluates back to exactly the original code text. -/
theorem pyRepr_roundtrip (s : String) : pyEvalStrLit (pyRepr s) = some s := by
  have hq : pyReprQuote s = '\'' ∨ pyReprQuote s = '"' := by
    unfold pyReprQuote
    split_ifs <;> simp
  simp only [pyRepr, pyEvalStrLit]
  rcases hq with h | h
  · rw [h]
    show (pyEvalBody '\'' (pyReprBody '\'' s.toList ++ ['\''])).map String.mk = some s
    rw [pyEvalBody_pyReprBody _ (Or.inl rfl)]
    rfl
  · rw [h]
    show (pyEvalBody '"' (pyReprBody '"' s.toList ++ ['"'])).map String.mk = some s
    rw [pyEvalBody_pyReprBody _ (Or.inr rfl)]
    rfl

/-! ## Claim theorems -/

/-- A `json.loads` oracle used by concrete runs: parses the single
token "OK" into a successful raw record and rejects everything else. -/
def jOK : JsonLoads :=
  fun s => if s = "OK" then some (JVal.obj [("success", JVal.bool true)]) else Option.none

/-- A `json.loads` oracle parsing the single token "5" into the JSON
number 5 (as the real library does for a wrapper run whose only output
was printed by the embedded code) and rejecting everything else. -/
def jNum : JsonLoads :=
  fun s => if s = "5" then some (JVal.num 5) else Option.none

/-- A successful classifier call returns the classification of the
dict the value carries. -/
theorem classifyValue_ok {v : JVal} {c : Dict} (h : classifyValue v = .ok c) :
    ∃ r, c = _classify_runtime_errors r := by
  cases v <;> simp [classifyValue] at h
  case obj fields => exact ⟨fields, h.symm⟩

/-- C1: for every code text and every behavior of the container run,
the subprocess run and the JSON parser, `analyze` ends in a value:
either the classification of some raw execution result, or the
documented skipped record — covering container success and failure,
subprocess success and failure, filter rejection, and skip. -/
theorem analyze_never_raises (jsonLoads : JsonLoads) (ca : Bool) (code : String)
    (sb : SandboxOutcome) (sp : SubprocOutcome) :
    (∃ r, analyze jsonLoads ca code sb sp = _classify_runtime_errors r) ∨
    analyze jsonLoads ca code sb sp = skippedResult := by
  have hsub : (∃ r, subprocessPhase jsonLoads code sp = _classify_runtime_errors r) ∨
      subprocessPhase jsonLoads code sp = skippedResult := by
    unfold subprocessPhase
    split_ifs
    · cases h2 : _execute_in_subprocess jsonLoads sp with
      | error e => simp [h2]
      | ok v =>
        cases h3 : classifyValue v with
        | error e => simp [h2, h3]
        | ok c =>
          obtain ⟨r, rfl⟩ := classifyValue_ok h3
          exact Or.inl ⟨r, by simp [h2, h3]⟩
    · exact Or.inr rfl
  unfold analyze
  split_ifs
  · cases h2 : _execute_in_sandbox jsonLoads sb with
    | error e => simp only [h2]; exact hsub
    | ok v =>
      cases h3 : classifyValue v with
      | error e => simp only [h2, h3]; exact hsub
      | ok c =>
        obtain ⟨r, rfl⟩ := classifyValue_ok h3
        exact Or.inl ⟨r, by simp [h2, h3]⟩
  · exact hsub

/-- C2 (counterexample): at a concrete request that ends in the skip
path, the returned record has no `missing_corner_case` key and no
`execution_success` key, refuting the claim that every value returned
by `analyze` carries the execution-success field and all five category
keys. -/
theorem skipped_result_lacks_fixed_keys :
    analyze (fun _ => Option.none) false "import os" SandboxOutcome.prepRaises
      SubprocOutcome.raises = skippedResult ∧
    lookupKey skippedResult "missing_corner_case" = Option.none ∧
    lookupKey skippedResult "execution_success" = Option.none :=
  ⟨rfl, rfl, rfl⟩

/-- C2 (amended): every value produced through the classifier carries
`execution_success` and all five fixed category keys, each defaulting
to not-found (on a successful raw result every category stays
not-found); the documented skipped record instead carries an
`execution_error` flag and an explanation and only the other four
category keys, all not-found — `execution_success` and
`missing_corner_case` are absent from it. -/
theorem classification_carries_all_keys (result : Dict) (output et msg tb : JVal) :
    (lookupKey (_classify_runtime_errors result) "execution_success").isSome = true ∧
    (categoryKeys.all
      (fun k => (lookupKey (_classify_runtime_errors result) k).isSome)) = true ∧
    (categoryKeys.all
      (fun k => !(isFound (_classify_runtime_errors (mkRaw true output et msg tb)) k)))
      = true ∧
    lookupKey skippedResult "execution_success" = Option.none ∧
    lookupKey skippedResult "missing_corner_case" = Option.none ∧
    lookupKey skippedResult "execution_error" = some (JVal.bool false) ∧
    (["wrong_attribute", "wrong_input_type", "name_error", "other_error"].all
      (fun k => !(isFound skippedResult k))) = true := by
  refine ⟨?_, ?_, ?_, rfl, rfl, rfl, by decide⟩
  · simp only [_classify_runtime_errors]
    split_ifs <;> simp
  · simp only [_classify_runtime_errors]
    split_ifs <;> simp [categoryKeys]
  · simp [_classify_runtime_errors, mkRaw, JVal.truthy, categoryKeys, isFound]

/-- C3 (counterexample): with the Docker client available, a container
run that times out is classified directly — the result is the
classification of the container's timeout record, with `other_error`
found and `execution_success` false — even though the subprocess
outcome for the same request parses to a successful record, which would
have yielded `execution_success` true had the subprocess path been
tried. -/
theorem container_failure_bypasses_subprocess :
    analyze jOK true "x = 1" SandboxOutcome.waitFails (SubprocOutcome.completed "OK" "") =
      _classify_runtime_errors
        [("success", JVal.bool false), ("error", JVal.str "Execution timed out"),
         ("error_type", JVal.str "TimeoutError")] ∧
    isFound (analyze jOK true "x = 1" SandboxOutcome.waitFails
      (SubprocOutcome.completed "OK" "")) "other_error" = true ∧
    getD (analyze jOK true "x = 1" SandboxOutcome.waitFails
      (SubprocOutcome.completed "OK" "")) "execution_success" JVal.none = JVal.bool false ∧
    getD (_classify_runtime_errors [("success", JVal.bool true)])
      "execution_success" JVal.none = JVal.bool true :=
  ⟨rfl, rfl, rfl, rfl⟩

/-- C3 (amended): two things cause the transition to the subprocess
phase — an exception escaping the sandbox helper before its guarded
block (wrapper materialization), and a helper result that is not a
dict (a parsed non-object value, on which the classifier call raises
inside the caller's guarded region); every container failure handled
inside the helper — its timeout, a container error, a missing
reference image, and any other launch or internal error — is returned
as a raw dict and turned directly into a Classification, without the
subprocess path being consulted. -/
theorem container_failure_classified_directly (jsonLoads : JsonLoads) (code : String)
    (sb : SandboxOutcome) (sp : SubprocOutcome) :
    analyze jsonLoads true code SandboxOutcome.prepRaises sp =
      subprocessPhase jsonLoads code sp ∧
    (∀ r, _execute_in_sandbox jsonLoads sb = .ok (JVal.obj r) →
      analyze jsonLoads true code sb sp = _classify_runtime_errors r) ∧
    (∀ v, _execute_in_sandbox jsonLoads sb = .ok v → classifyValue v = .error () →
      analyze jsonLoads true code sb sp = subprocessPhase jsonLoads code sp) ∧
    (sb ≠ SandboxOutcome.prepRaises → (∀ out, sb ≠ SandboxOutcome.completed out) →
      ∃ r, _execute_in_sandbox jsonLoads sb = .ok (JVal.obj r)) := by
  refine ⟨rfl, ?_, ?_, ?_⟩
  · intro r h
    simp [analyze, h, classifyValue]
  · intro v h hc
    simp [analyze, h, hc]
  · intro h1 h2
    cases sb with
    | prepRaises => exact absurd rfl h1
    | completed out => exact absurd rfl (h2 out)
    | runRaises e => cases e <;> exact ⟨_, rfl⟩
    | waitFails => exact ⟨_, rfl⟩

/-- Witness for C3's amended theorem at two concrete requests: a
container timeout is classified directly, and a container run whose
captured output parses to the non-dict 5 (the embedded code printed 5
and exited before the result line) falls to the subprocess phase. -/
theorem container_failure_classified_directly_witness :
    analyze (fun _ => Option.none) true "y" SandboxOutcome.waitFails SubprocOutcome.raises =
      _classify_runtime_errors
        [("success", JVal.bool false), ("error", JVal.str "Execution timed out"),
         ("error_type", JVal.str "TimeoutError")] ∧
    analyze jNum true "y" (SandboxOutcome.completed "5") SubprocOutcome.raises =
      subprocessPhase jNum "y" SubprocOutcome.raises :=
  ⟨(container_failure_classified_directly (fun _ => Option.none) "y"
      SandboxOutcome.waitFails SubprocOutcome.raises).2.1 _ rfl,
   (container_failure_classified_directly jNum "y"
      (SandboxOutcome.completed "5") SubprocOutcome.raises).2.2.1 (JVal.num 5) rfl rfl⟩

/-- C4: the classifier is the fixed table of the specification — on a
raw record with the data model's five fields, success yields
`execution_success` true with every category not-found, each recognized
failure kind marks exactly its own category, and every other kind marks
`other_error` carrying the original kind label, message and trace. -/
theorem classifier_matches_table (success : Bool) (output et msg tb : JVal) :
    _classify_runtime_errors (mkRaw success output et msg tb) =
      classifierTable success et msg tb := by
  cases success
  · simp only [_classify_runtime_errors, classifierTable, mkRaw]
    simp [JVal.truthy]
    split_ifs <;> simp [notFound]
  · simp [_classify_runtime_errors, classifierTable, mkRaw, JVal.truthy, notFound]

/-- C5 (counterexample): at a concrete request with Docker unavailable
and a deny-listed import, the skip record is returned, but it does not
carry the `missing_corner_case` category at all, refuting "every
category not-found" over the five fixed categories. -/
theorem skip_lacks_missing_corner_case :
    analyze (fun _ => Option.none) false "import socket" SandboxOutcome.waitFails
      (SubprocOutcome.completed "" "") = skippedResult ∧
    lookupKey (analyze (fun _ => Option.none) false "import socket" SandboxOutcome.waitFails
      (SubprocOutcome.completed "" "")) "missing_corner_case" = Option.none :=
  ⟨rfl, rfl⟩

/-- C5 (amended): when the container backend is unavailable and the
lexical deny-list matches the code, `analyze` returns the documented
skipped record no matter what the subprocess run would have done — the
subprocess backend never executes the code — and no category of that
record is marked found (the four categories it carries are not-found;
`missing_corner_case` is absent rather than present-as-not-found). -/
theorem dangerous_code_skipped (code : String) (h : _is_safe_for_subprocess code = false)
    (jsonLoads : JsonLoads) (sb : SandboxOutcome) (sp : SubprocOutcome) :
    analyze jsonLoads false code sb sp = skippedResult ∧
    (categoryKeys.all (fun k => !(isFound skippedResult k))) = true := by
  refine ⟨?_, by decide⟩
  simp [analyze, subprocessPhase, h]

/-- Witness for C5's amended theorem: `import os` is deny-listed. -/
theorem dangerous_code_skipped_witness :
    analyze (fun _ => Option.none) false "import os" SandboxOutcome.prepRaises
      SubprocOutcome.timeoutExpired = skippedResult ∧
    (categoryKeys.all (fun k => !(isFound skippedResult k))) = true :=
  dangerous_code_skipped "import os" rfl (fun _ => Option.none) SandboxOutcome.prepRaises
    SubprocOutcome.timeoutExpired

/-- C6 (counterexample): embedded code that raises a `BaseException`
outside `Exception` — `exit()` raises `SystemExit` — escapes the
wrapper's `except Exception`-bounded chain, and the script terminates
with zero structured result lines on standard output, refuting both
"prints exactly one machine-parseable structured result line" and "any
failure of the embedded code is caught rather than escaping". -/
theorem wrapper_base_exception_no_record :
    ((wrapperRun ["5"] CodeOutcome.baseEscape).filter isRecordLine).length = 0 :=
  rfl

/-- C6 (amended): when the embedded code completes or raises an
`Exception`-derived failure, the wrapper's standard output carries
exactly one structured result line — the last line, regardless of what
the embedded code printed — recording a failure with its kind label,
message and trace, and a completion as success; but embedded code that
raises a `BaseException` outside `Exception` (e.g. `SystemExit` via
`exit()`), or that rebinds the emission machinery in the exec-shared
namespace, terminates the script with no result line at all. -/
theorem wrapper_record_emission (printed : List String) (label msg tb : String) :
    (wrapperRun printed CodeOutcome.ok).filter isRecordLine =
      [OutLine.record (wrapperResult CodeOutcome.ok)] ∧
    (wrapperRun printed (CodeOutcome.raises label msg tb)).filter isRecordLine =
      [OutLine.record (wrapperResult (CodeOutcome.raises label msg tb))] ∧
    wrapperResult (CodeOutcome.raises label msg tb) =
      [("success", JVal.bool false), ("output", JVal.str ""), ("error", JVal.str msg),
       ("error_type", JVal.str label), ("traceback", JVal.str tb)] ∧
    getD (wrapperResult CodeOutcome.ok) "success" JVal.none = JVal.bool true ∧
    getD (wrapperResult CodeOutcome.ok) "output" JVal.none =
      JVal.str "Code executed successfully" ∧
    (wrapperRun printed CodeOutcome.baseEscape).filter isRecordLine = [] ∧
    (wrapperRun printed CodeOutcome.breaksEmission).filter isRecordLine = [] := by
  refine ⟨?_, ?_, by simp [wrapperResult, wrapperInitResult], rfl, rfl, ?_, ?_⟩ <;>
    simp [wrapperRun, isRecordLine, List.filter_append, List.filter_map, Function.comp]

/-- C7: the wrapper builder is a function of the code text alone, its
output decomposes around the embedded literal, and the literal-encoding
round-trips every code text: evaluating the embedded string literal
yields back exactly the original code, so quotes and newlines in the
code cannot terminate the literal early. -/
theorem wrapper_literal_roundtrip (code : String) :
    pyEvalStrLit (pyRepr code) = some code ∧
    _build_wrapper code = wrapperHeader ++ pyRepr code ++ wrapperTail :=
  ⟨pyRepr_roundtrip code, rfl⟩

/-- C8: the subprocess backend synthesizes a timeout raw record when the
timeout expires; on completion it parses the stripped standard output,
falls back to standard error exactly when the stripped standard output
is empty, returns the parsed record on success, and yields a
parse-error raw record carrying the raw text when parsing fails. -/
theorem subprocess_capture_and_fallback (jsonLoads : JsonLoads) (stdout stderr : String) :
    _execute_in_subprocess jsonLoads SubprocOutcome.timeoutExpired =
      .ok (JVal.obj subprocTimeoutRaw) ∧
    ((pyStrip stdout).isEmpty = false → ∀ v, jsonLoads (pyStrip stdout) = some v →
      _execute_in_subprocess jsonLoads (SubprocOutcome.completed stdout stderr) = .ok v) ∧
    ((pyStrip stdout).isEmpty = false → jsonLoads (pyStrip stdout) = Option.none →
      _execute_in_subprocess jsonLoads (SubprocOutcome.completed stdout stderr) =
        .ok (JVal.obj (subprocParseFailure (pyStrip stdout)))) ∧
    ((pyStrip stdout).isEmpty = true → ∀ v, jsonLoads (pyStrip stderr) = some v →
      _execute_in_subprocess jsonLoads (SubprocOutcome.completed stdout stderr) = .ok v) ∧
    ((pyStrip stdout).isEmpty = true → jsonLoads (pyStrip stderr) = Option.none →
      _execute_in_subprocess jsonLoads (SubprocOutcome.completed stdout stderr) =
        .ok (JVal.obj (subprocParseFailure (pyStrip stderr)))) := by
  refine ⟨rfl, ?_, ?_, ?_, ?_⟩
  · intro he d hd
    simp [_execute_in_subprocess, he, hd]
  · intro he hd
    simp [_execute_in_subprocess, he, hd]
  · intro he d hd
    simp [_execute_in_subprocess, he, hd]
  · intro he hd
    simp [_execute_in_subprocess, he, hd]

/-- Witness for C8 at a concrete run whose output fails to parse. -/
theorem subprocess_capture_and_fallback_witness :
    _execute_in_subprocess (fun _ => Option.none) (SubprocOutcome.completed " x " "") =
      .ok (JVal.obj (subprocParseFailure (pyStrip " x "))) :=
  (subprocess_capture_and_fallback (fun _ => Option.none) " x " "").2.2.1 rfl rfl

/-- C9: for every raw record — well-formed or not — the classifier
marks at most one of the five categories found. -/
theorem classifier_mutually_exclusive (result : Dict) :
    foundCount (_classify_runtime_errors result) ≤ 1 := by
  simp only [_classify_runtime_errors]
  split_ifs <;> simp [foundCount, categoryKeys, isFound, JVal.truthy]

/-- C10: the classifier is total over arbitrary records: with no
`success` key the record is treated as a failure (`execution_success`
false), and when the error kind is missing or not one of the four
recognized kinds, `other_error` is marked found, carrying the original
— possibly absent — kind label together with the message and trace
defaults. -/
theorem classifier_total_on_partial_records (d : Dict)
    (hs : lookupKey d "success" = Option.none)
    (hz : jeqStr (getD d "error_type" JVal.none) "ZeroDivisionError" = false)
    (ha : jeqStr (getD d "error_type" JVal.none) "AttributeError" = false)
    (ht : jeqStr (getD d "error_type" JVal.none) "TypeError" = false)
    (hn : jeqStr (getD d "error_type" JVal.none) "NameError" = false) :
    getD (_classify_runtime_errors d) "execution_success" JVal.none = JVal.bool false ∧
    isFound (_classify_runtime_errors d) "other_error" = true ∧
    lookupKey (_classify_runtime_errors d) "other_error" =
      some (.obj [("found", .bool true),
                  ("error_type", getD d "error_type" JVal.none),
                  ("error", getD d "error" (.str "")),
                  ("traceback", getD d "traceback" (.str ""))]) := by
  have h1 : getD d "success" JVal.none = JVal.none := by simp [getD, hs]
  have h2 : getD d "success" (JVal.bool false) = JVal.bool false := by simp [getD, hs]
  simp only [_classify_runtime_errors]
  simp [h1, h2, JVal.truthy, hz, ha, ht, hn, isFound]

/-- Witness for C10 on a record lacking success, message and trace,
with an unrecognized kind. -/
theorem classifier_total_on_partial_records_witness :
    getD (_classify_runtime_errors [("error_type", JVal.str "RecursionError")])
      "execution_success" JVal.none = JVal.bool false ∧
    isFound (_classify_runtime_errors [("error_type", JVal.str "RecursionError")])
      "other_error" = true ∧
    lookupKey (_classify_runtime_errors [("error_type", JVal.str "RecursionError")])
      "other_error" =
      some (JVal.obj [("found", JVal.bool true),
        ("error_type", getD [("error_type", JVal.str "RecursionError")] "error_type" JVal.none),
        ("error", getD [("error_type", JVal.str "RecursionError")] "error" (JVal.str "")),
        ("traceback",
          getD [("error_type", JVal.str "RecursionError")] "traceback" (JVal.str ""))]) :=
  classifier_total_on_partial_records [("error_type", JVal.str "RecursionError")]
    rfl rfl rfl rfl rfl

end CodeGuard

